import Mathlib

/-!
Shallow embedding of the browser-server session/screen core
(`screen_manager.py`, `browser_manager.py`, `session_manager.py`).

External effects (spawning Xvfb / x11vnc, launching the browser engine,
closing engine handles) are modelled by boolean oracles passed to the
functions: `startOk d` says whether spawning Xvfb on display `d` would
succeed this round, `vncOk d` the same for the VNC server, `launchOk`
whether the engine launch succeeds, `closeOk b` whether closing browser
`b`'s engine handle succeeds.  Python dicts (which preserve insertion
order and are scanned in that order) are modelled as association lists.
-/

namespace BrowserServer

/-- One record of `ScreenManager.screens` (screen_manager.py, `__init__`).
`xvfb_alive` models `xvfb_process is not None and poll() is None`;
`vnc_alive` the same for `vnc_process`. -/
structure Screen where
  in_use : Bool
  xvfb_alive : Bool
  vnc_alive : Bool
  width : Nat
  height : Nat
  depth : Nat
  vnc_port : Nat
  vnc_url : String
deriving DecidableEq, Repr

/-- The `ScreenManager.screens` dict: display number ↦ screen record. -/
abbrev Screens := List (Nat × Screen)

/-- A fresh slot record as built in `ScreenManager.__init__`. -/
def init_screen (hostname : String) (vnc_port : Nat) : Screen :=
  { in_use := false, xvfb_alive := false, vnc_alive := false,
    width := 1280, height := 1024, depth := 24,
    vnc_port := vnc_port,
    vnc_url := "vnc://" ++ hostname ++ ":" ++ toString vnc_port }

/-- The initial `screens` dict of `ScreenManager.__init__`: for
`i in range(max_screens)`, display `base_display + i`, port `base_vnc_port + i`. -/
def init_screens (max_screens base_display base_vnc_port : Nat) (hostname : String) : Screens :=
  (List.range max_screens).map fun i =>
    (base_display + i, init_screen hostname (base_vnc_port + i))

/-- `ScreenManager.start_screen` acting on the record of `display_num`
(the only entry of `screens` that the Python function reads or writes;
the `display_num not in self.screens` guard is handled at call sites).
Returns the updated record, the success flag and the VNC URL:
  * already running (`xvfb_process` alive): `(True, vnc_url)`, no change;
  * Xvfb spawn fails (dies within the settle delay, or raises):
    `(False, None)`, no change (the dead handle is never stored);
  * Xvfb ok, VNC spawn fails: still `(True, None)` with geometry updated;
  * both ok: `(True, vnc_url)`. -/
def start_screen (startOk vncOk : Nat → Bool) (display_num width height depth : Nat)
    (s : Screen) : Screen × Bool × Option String :=
  if s.xvfb_alive then
    (s, true, some s.vnc_url)
  else if startOk display_num then
    let s1 : Screen :=
      { s with xvfb_alive := true, width := width, height := height, depth := depth }
    if vncOk display_num then
      ({ s1 with vnc_alive := true }, true, some s1.vnc_url)
    else
      (s1, true, none)
  else
    (s, false, none)

/-- `ScreenManager.get_available_screen`: under the manager's lock, scan
`screens` in order; on the first slot with `in_use == False`, start it
(passing its stored geometry); on success mark `in_use = True` and return
`(display_num, vnc_url)`; on failure continue the scan; return
`(None, None)` when the scan finds nothing. -/
def get_available_screen (startOk vncOk : Nat → Bool) :
    Screens → Screens × Option Nat × Option String
  | [] => ([], none, none)
  | (d, s) :: rest =>
    if s.in_use then
      let r := get_available_screen startOk vncOk rest
      ((d, s) :: r.1, r.2)
    else
      let t := start_screen startOk vncOk d s.width s.height s.depth s
      if t.2.1 then
        ((d, { t.1 with in_use := true }) :: rest, some d, t.2.2)
      else
        let r := get_available_screen startOk vncOk rest
        ((d, t.1) :: r.1, r.2)

/-- `ScreenManager.release_screen`: under the lock, if `display_num` is not a
key of `screens` log and return `False`; otherwise set that record's
`in_use = False` and return `True`. -/
def release_screen (l : Screens) (display_num : Nat) : Screens × Bool :=
  if l.any (fun p => p.1 == display_num) then
    (l.map (fun p => if p.1 = display_num then (p.1, { p.2 with in_use := false }) else p),
     true)
  else
    (l, false)

/-- Success condition of `start_screen`: the slot is already running, or the
spawn succeeds this round. -/
def startable (startOk : Nat → Bool) (d : Nat) (s : Screen) : Bool :=
  s.xvfb_alive || startOk d

/-- A slot that `get_available_screen`'s scan can lease: free and startable. -/
def available (startOk : Nat → Bool) (p : Nat × Screen) : Bool :=
  !p.2.in_use && startable startOk p.1 p.2

/-! ### Basic lemmas about `start_screen` -/

theorem start_screen_success (so vo : Nat → Bool) (d w h dep : Nat) (s : Screen) :
    (start_screen so vo d w h dep s).2.1 = startable so d s := by
  unfold start_screen startable
  split_ifs <;> simp_all

theorem start_screen_fail_frame (so vo : Nat → Bool) (d w h dep : Nat) (s : Screen)
    (hfail : (start_screen so vo d w h dep s).2.1 = false) :
    (start_screen so vo d w h dep s).1 = s := by
  unfold start_screen at *
  split_ifs at *
  all_goals simp_all

theorem start_screen_in_use (so vo : Nat → Bool) (d w h dep : Nat) (s : Screen) :
    (start_screen so vo d w h dep s).1.in_use = s.in_use := by
  unfold start_screen
  split_ifs
  all_goals rfl

/-! ### Lemmas about `get_available_screen` -/

theorem get_available_screen_cons (so vo : Nat → Bool) (d : Nat) (s : Screen)
    (rest : Screens) :
    get_available_screen so vo ((d, s) :: rest) =
      if s.in_use then
        ((d, s) :: (get_available_screen so vo rest).1,
         (get_available_screen so vo rest).2)
      else if (start_screen so vo d s.width s.height s.depth s).2.1 then
        ((d, { (start_screen so vo d s.width s.height s.depth s).1
                 with in_use := true }) :: rest,
         some d, (start_screen so vo d s.width s.height s.depth s).2.2)
      else
        ((d, (start_screen so vo d s.width s.height s.depth s).1)
            :: (get_available_screen so vo rest).1,
         (get_available_screen so vo rest).2) := rfl

theorem get_available_screen_keys (so vo : Nat → Bool) (l : Screens) :
    ((get_available_screen so vo l).1).map (·.1) = l.map (·.1) := by
  induction l with
  | nil => rfl
  | cons p rest ih =>
    obtain ⟨d, s⟩ := p
    rw [get_available_screen_cons]
    by_cases h1 : s.in_use
    · simp [h1, ih]
    · by_cases h2 : (start_screen so vo d s.width s.height s.depth s).2.1
      · simp [h1, h2]
      · simp [h1, h2, ih]

theorem get_available_screen_ret (so vo : Nat → Bool) (l : Screens) :
    (get_available_screen so vo l).2.1 = (l.find? (available so)).map (·.1) := by
  induction l with
  | nil => rfl
  | cons p rest ih =>
    obtain ⟨d, s⟩ := p
    rw [get_available_screen_cons]
    by_cases h1 : s.in_use
    · have hav : available so (d, s) = false := by simp [available, h1]
      simp [h1, List.find?, hav, ih]
    · by_cases h2 : (start_screen so vo d s.width s.height s.depth s).2.1
      · have hst : startable so d s = true := by
          rw [← start_screen_success so vo d s.width s.height s.depth s]; exact h2
        have hav : available so (d, s) = true := by simp [available, h1, hst]
        simp [h1, h2, List.find?, hav]
      · have hst : startable so d s = false := by
          rw [← start_screen_success so vo d s.width s.height s.depth s]
          simpa using h2
        have hav : available so (d, s) = false := by simp [available, hst]
        simp [h1, h2, List.find?, hav, ih]

theorem get_available_screen_none_frame (so vo : Nat → Bool) (l : Screens)
    (hnone : (get_available_screen so vo l).2.1 = none) :
    (get_available_screen so vo l).1 = l := by
  induction l with
  | nil => rfl
  | cons p rest ih =>
    obtain ⟨d, s⟩ := p
    rw [get_available_screen_cons] at hnone ⊢
    by_cases h1 : s.in_use
    · simp only [h1, if_true] at hnone ⊢
      simp [ih (by simpa using hnone)]
    · by_cases h2 : (start_screen so vo d s.width s.height s.depth s).2.1
      · simp [h1, h2] at hnone
      · simp only [h1, Bool.false_eq_true, if_false, h2] at hnone ⊢
        have hframe := start_screen_fail_frame so vo d s.width s.height s.depth s
          (by simpa using h2)
        simp [hframe, ih (by simpa using hnone)]

theorem get_available_screen_some_split (so vo : Nat → Bool) (l : Screens) (d : Nat)
    (hsome : (get_available_screen so vo l).2.1 = some d) :
    ∃ l₁ s l₂,
      l = l₁ ++ (d, s) :: l₂ ∧
      s.in_use = false ∧
      startable so d s = true ∧
      (∀ p ∈ l₁, available so p = false) ∧
      (get_available_screen so vo l).1 =
        l₁ ++ (d, { (start_screen so vo d s.width s.height s.depth s).1
                      with in_use := true }) :: l₂ := by
  induction l with
  | nil => simp [get_available_screen] at hsome
  | cons p rest ih =>
    obtain ⟨d0, s0⟩ := p
    rw [get_available_screen_cons] at hsome ⊢
    by_cases h1 : s0.in_use
    · simp only [h1, if_true] at hsome ⊢
      obtain ⟨l₁, s, l₂, heq, hin, hst, hav, hout⟩ := ih (by simpa using hsome)
      exact ⟨(d0, s0) :: l₁, s, l₂, by simp [heq], hin, hst,
        by
          intro p hp
          rcases List.mem_cons.mp hp with h | h
          · subst h; simp [available, h1]
          · exact hav p h,
        by simp [hout]⟩
    · by_cases h2 : (start_screen so vo d0 s0.width s0.height s0.depth s0).2.1
      · simp only [h1, Bool.false_eq_true, if_false, h2, if_true] at hsome ⊢
        have hd : d0 = d := by simpa using hsome
        subst hd
        refine ⟨[], s0, rest, by simp, by simpa using h1, ?_, by simp, by simp⟩
        rw [← start_screen_success so vo d0 s0.width s0.height s0.depth s0]
        exact h2
      · simp only [h1, h2, Bool.false_eq_true, if_false] at hsome ⊢
        obtain ⟨l₁, s, l₂, heq, hin, hst, hav, hout⟩ := ih (by simpa using hsome)
        have hframe := start_screen_fail_frame so vo d0 s0.width s0.height s0.depth s0
          (by simpa using h2)
        have hst0 : startable so d0 s0 = false := by
          rw [← start_screen_success so vo d0 s0.width s0.height s0.depth s0]
          simpa using h2
        exact ⟨(d0, s0) :: l₁, s, l₂, by simp [heq], hin, hst,
          by
            intro p hp
            rcases List.mem_cons.mp hp with h | h
            · subst h; simp [available, hst0]
            · exact hav p h,
          by simp [hframe, hout]⟩

/-! ### Lemmas about `release_screen` -/

theorem release_screen_known (l : Screens) (d : Nat) (h : d ∈ l.map (·.1)) :
    release_screen l d =
      (l.map (fun p => if p.1 = d then (p.1, { p.2 with in_use := false }) else p),
       true) := by
  unfold release_screen
  rw [if_pos]
  rw [List.any_eq_true]
  obtain ⟨p, hp, he⟩ := List.mem_map.mp h
  exact ⟨p, hp, by simp [he]⟩

theorem release_screen_unknown (l : Screens) (d : Nat) (h : d ∉ l.map (·.1)) :
    release_screen l d = (l, false) := by
  unfold release_screen
  rw [if_neg]
  intro hc
  obtain ⟨p, hp, he⟩ := List.any_eq_true.mp hc
  exact h (List.mem_map.mpr ⟨p, hp, by simpa using he⟩)

theorem release_screen_keys (l : Screens) (d : Nat) :
    ((release_screen l d).1).map (·.1) = l.map (·.1) := by
  unfold release_screen
  split_ifs with h
  · simp only [List.map_map]
    refine List.map_congr_left ?_
    intro p _
    by_cases hp : p.1 = d <;> simp [hp]
  · rfl

theorem release_screen_mem_ne (l : Screens) (d : Nat) (p : Nat × Screen)
    (hp : p ∈ l) (hne : p.1 ≠ d) : p ∈ (release_screen l d).1 := by
  unfold release_screen
  split_ifs with h
  · exact List.mem_map.mpr ⟨p, hp, by simp [hne]⟩
  · exact hp

theorem release_screen_mem_eq (l : Screens) (d : Nat) (p : Nat × Screen)
    (hp : p ∈ l) (heq : p.1 = d) :
    (d, { p.2 with in_use := false }) ∈ (release_screen l d).1 := by
  have hk : d ∈ l.map (·.1) := List.mem_map.mpr ⟨p, hp, heq⟩
  rw [release_screen_known l d hk]
  exact List.mem_map.mpr ⟨p, hp, by simp [heq]⟩

/-! ### The lease discipline of the pool (claim C1)

A trace of client interactions with the `ScreenManager`: each event is one
`get_available_screen` call (with its environment oracles) or one
`release_screen` call.  Each call runs whole under the manager's
`asyncio.Lock`, so a trace is a sequence of atomic steps.  Alongside the
`screens` dict we carry the ghost list of outstanding leases: display
numbers handed out by `get_available_screen` and not yet passed back to
`release_screen`. -/

inductive PoolEvent where
  | acquire (startOk vncOk : Nat → Bool)
  | release (display_num : Nat)

/-- One atomic pool interaction on (screens dict, outstanding leases). -/
def pool_step (st : Screens × List Nat) : PoolEvent → Screens × List Nat
  | .acquire so vo =>
    let r := get_available_screen so vo st.1
    match r.2.1 with
    | some d => (r.1, d :: st.2)
    | none => (r.1, st.2)
  | .release d => ((release_screen st.1 d).1, st.2.erase d)

/-- A whole trace from the freshly constructed `ScreenManager`. -/
def pool_run (max_screens base_display base_vnc_port : Nat) (hostname : String)
    (es : List PoolEvent) : Screens × List Nat :=
  es.foldl pool_step (init_screens max_screens base_display base_vnc_port hostname, [])

/-- Pool invariant: display numbers are unique keys, outstanding leases are
pairwise distinct, and every outstanding lease points at a slot whose
`in_use` is set. -/
def PoolInv (l : Screens) (leases : List Nat) : Prop :=
  (l.map (·.1)).Nodup ∧ leases.Nodup ∧
    ∀ d ∈ leases, ∃ s : Screen, (d, s) ∈ l ∧ s.in_use = true

theorem keys_nodup_eq {l : Screens} (hnd : (l.map (·.1)).Nodup) {d : Nat} {a b : Screen}
    (ha : (d, a) ∈ l) (hb : (d, b) ∈ l) : a = b := by
  induction l with
  | nil => cases ha
  | cons q rest ih =>
    simp only [List.map_cons, List.nodup_cons] at hnd
    rcases List.mem_cons.mp ha with ha' | ha' <;> rcases List.mem_cons.mp hb with hb' | hb'
    · have hab : (d, a) = (d, b) := ha'.trans hb'.symm
      exact (Prod.mk.inj hab).2
    · have hq : q.1 = d := by rw [← ha']
      exact absurd (List.mem_map.mpr ⟨(d, b), hb', rfl⟩) (hq ▸ hnd.1)
    · have hq : q.1 = d := by rw [← hb']
      exact absurd (List.mem_map.mpr ⟨(d, a), ha', rfl⟩) (hq ▸ hnd.1)
    · exact ih hnd.2 ha' hb'

theorem pool_step_inv (st : Screens × List Nat) (e : PoolEvent)
    (h : PoolInv st.1 st.2) : PoolInv (pool_step st e).1 (pool_step st e).2 := by
  obtain ⟨l, leases⟩ := st
  obtain ⟨hkeys, hnd, hmem⟩ := h
  cases e with
  | release d =>
    refine ⟨?_, hnd.erase d, ?_⟩
    · simpa [pool_step] using (release_screen_keys l d ▸ hkeys)
    · intro x hx
      simp only [pool_step] at hx ⊢
      have hx' : x ≠ d ∧ x ∈ leases := (List.Nodup.mem_erase_iff hnd).mp hx
      obtain ⟨s, hsl, hsu⟩ := hmem x hx'.2
      exact ⟨s, release_screen_mem_ne l d (x, s) hsl hx'.1, hsu⟩
  | acquire so vo =>
    simp only [pool_step]
    cases hr : (get_available_screen so vo l).2.1 with
    | none =>
      have hframe := get_available_screen_none_frame so vo l hr
      simp only [hr, hframe]
      exact ⟨hkeys, hnd, hmem⟩
    | some d =>
      obtain ⟨l₁, s, l₂, heq, hin, _, _, hout⟩ :=
        get_available_screen_some_split so vo l d hr
      have hkeys' : (((get_available_screen so vo l).1).map (·.1)).Nodup := by
        rw [get_available_screen_keys]; exact hkeys
      have hdnot : d ∉ leases := by
        intro hd
        obtain ⟨s₀, hs₀l, hs₀u⟩ := hmem d hd
        have hmid : (d, s) ∈ l := by rw [heq]; simp
        have : s₀ = s := keys_nodup_eq hkeys hs₀l hmid
        rw [this, hin] at hs₀u
        exact Bool.false_ne_true hs₀u
      simp only [hr]
      refine ⟨hkeys', List.nodup_cons.mpr ⟨hdnot, hnd⟩, ?_⟩
      intro x hx
      rcases List.mem_cons.mp hx with hx' | hx'
      · subst hx'
        refine ⟨{ (start_screen so vo x s.width s.height s.depth s).1
                    with in_use := true }, ?_, rfl⟩
        rw [hout]; simp
      · obtain ⟨s₀, hs₀l, hs₀u⟩ := hmem x hx'
        rw [heq] at hs₀l
        rcases List.mem_append.mp hs₀l with hy | hy
        · exact ⟨s₀, by rw [hout]; exact List.mem_append.mpr (Or.inl hy), hs₀u⟩
        · rcases List.mem_cons.mp hy with hy' | hy'
          · exfalso
            have hxd : x = d := (Prod.mk.inj hy').1
            have hss : s₀ = s := (Prod.mk.inj hy').2
            rw [hss, hin] at hs₀u
            exact Bool.false_ne_true hs₀u
          · exact ⟨s₀, by rw [hout]; exact List.mem_append.mpr (Or.inr (List.mem_cons.mpr (Or.inr hy'))), hs₀u⟩

theorem pool_foldl_inv (es : List PoolEvent) (st : Screens × List Nat)
    (h : PoolInv st.1 st.2) :
    PoolInv (es.foldl pool_step st).1 (es.foldl pool_step st).2 := by
  induction es generalizing st with
  | nil => exact h
  | cons e rest ih => exact ih _ (pool_step_inv st e h)

theorem init_screens_keys (N base bport : Nat) (host : String) :
    (init_screens N base bport host).map (·.1) = (List.range N).map (base + ·) := by
  simp [init_screens, List.map_map, Function.comp]

theorem init_screens_inv (N base bport : Nat) (host : String) :
    PoolInv (init_screens N base bport host) [] := by
  refine ⟨?_, List.nodup_nil, by simp⟩
  rw [init_screens_keys]
  exact List.Nodup.map (add_right_injective base) (List.nodup_range N)

theorem pool_run_inv (N base bport : Nat) (host : String) (es : List PoolEvent) :
    PoolInv (pool_run N base bport host es).1 (pool_run N base bport host es).2 :=
  pool_foldl_inv es _ (init_screens_inv N base bport host)

theorem pool_step_length (st : Screens × List Nat) (e : PoolEvent) :
    (pool_step st e).1.length = st.1.length := by
  cases e with
  | release d =>
    have := release_screen_keys st.1 d
    simpa [pool_step] using congrArg List.length this
  | acquire so vo =>
    have hk := get_available_screen_keys so vo st.1
    have hl : (get_available_screen so vo st.1).1.length = st.1.length := by
      simpa using congrArg List.length hk
    simp only [pool_step]
    cases (get_available_screen so vo st.1).2.1 <;> simpa using hl

theorem pool_run_length (N base bport : Nat) (host : String) (es : List PoolEvent) :
    (pool_run N base bport host es).1.length = N := by
  unfold pool_run
  have : ∀ (es : List PoolEvent) (st : Screens × List Nat),
      (es.foldl pool_step st).1.length = st.1.length := by
    intro es
    induction es with
    | nil => intro st; rfl
    | cons e rest ih =>
      intro st
      rw [List.foldl_cons, ih, pool_step_length]
  rw [this]
  simp [init_screens]

/-! ### Claim theorems about the screen pool -/

/-- C1: For every sequence of `get_available_screen` (acquire) and
`release_screen` (release) calls on a `ScreenManager` constructed with
`max_screens = N`, at most `N` slots have `in_use = true` at any instant,
no two outstanding (acquired, not yet released) leases share a display
number, and `get_available_screen` returns a display number only if that
slot's `in_use` was `false` and it sets it to `true` in the same critical
section. -/
theorem screen_pool_exclusive (N base_display base_vnc_port : Nat) (host : String)
    (es : List PoolEvent) :
    ((pool_run N base_display base_vnc_port host es).2.Nodup) ∧
    ((pool_run N base_display base_vnc_port host es).2.length ≤ N) ∧
    ((pool_run N base_display base_vnc_port host es).1.countP (fun p => p.2.in_use) ≤ N) ∧
    (∀ d ∈ (pool_run N base_display base_vnc_port host es).2,
        ∃ s : Screen,
          (d, s) ∈ (pool_run N base_display base_vnc_port host es).1 ∧
          s.in_use = true) ∧
    (∀ (so vo : Nat → Bool) (d : Nat),
        (get_available_screen so vo (pool_run N base_display base_vnc_port host es).1).2.1
            = some d →
        ∃ s s' : Screen,
          (d, s) ∈ (pool_run N base_display base_vnc_port host es).1 ∧
          s.in_use = false ∧
          (d, s') ∈
            (get_available_screen so vo
              (pool_run N base_display base_vnc_port host es).1).1 ∧
          s'.in_use = true) := by
  obtain ⟨hkeys, hnd, hmem⟩ := pool_run_inv N base_display base_vnc_port host es
  have hlen := pool_run_length N base_display base_vnc_port host es
  refine ⟨hnd, ?_, ?_, hmem, ?_⟩
  · have hsub : (pool_run N base_display base_vnc_port host es).2 ⊆
        ((pool_run N base_display base_vnc_port host es).1).map (·.1) := by
      intro d hd
      obtain ⟨s, hs, _⟩ := hmem d hd
      exact List.mem_map.mpr ⟨(d, s), hs, rfl⟩
    have := (List.Nodup.subperm hnd hsub).length_le
    simpa [hlen] using this
  · calc (pool_run N base_display base_vnc_port host es).1.countP (fun p => p.2.in_use)
        ≤ (pool_run N base_display base_vnc_port host es).1.length :=
          List.countP_le_length _
      _ = N := hlen
  · intro so vo d hsome
    obtain ⟨l₁, s, l₂, heq, hin, _, _, hout⟩ :=
      get_available_screen_some_split so vo _ d hsome
    refine ⟨s, { (start_screen so vo d s.width s.height s.depth s).1
                   with in_use := true }, ?_, hin, ?_, rfl⟩
    · rw [heq]; simp
    · rw [hout]; simp

/-- C8: `get_available_screen` scans the slots in order and leases the first
slot with `in_use = false` whose processes can be (lazily, idempotently)
started; a free candidate whose start fails is not leased and the scan
continues past it; the call returns `(None, None)` exactly when every slot
is in use or every start attempt on a free slot failed. -/
theorem get_available_screen_scan (so vo : Nat → Bool) (l : Screens) :
    ((get_available_screen so vo l).2.1 = (l.find? (available so)).map (·.1)) ∧
    ((get_available_screen so vo l).2.1 = none →
      (get_available_screen so vo l).1 = l ∧
      ∀ p ∈ l, p.2.in_use = true ∨ startable so p.1 p.2 = false) ∧
    (∀ d : Nat, (get_available_screen so vo l).2.1 = some d →
      ∃ l₁ s l₂,
        l = l₁ ++ (d, s) :: l₂ ∧
        s.in_use = false ∧
        startable so d s = true ∧
        (∀ p ∈ l₁, available so p = false) ∧
        (get_available_screen so vo l).1 =
          l₁ ++ (d, { (start_screen so vo d s.width s.height s.depth s).1
                        with in_use := true }) :: l₂) := by
  refine ⟨get_available_screen_ret so vo l, ?_, ?_⟩
  · intro hnone
    refine ⟨get_available_screen_none_frame so vo l hnone, ?_⟩
    intro p hp
    have hfind : l.find? (available so) = none := by
      have := (get_available_screen_ret so vo l) ▸ hnone
      exact Option.map_eq_none.mp this
    have hnav : available so p = false :=
      Bool.not_eq_true _ ▸ (List.find?_eq_none.mp hfind p hp)
    by_cases hu : p.2.in_use
    · exact Or.inl hu
    · right
      unfold available at hnav
      simpa [hu] using hnav
  · intro d hsome
    exact get_available_screen_some_split so vo l d hsome

/-- C9: for a known display number `release_screen` flips only that slot's
`in_use` to `false` and changes nothing else — the slot's process handles,
geometry, port and URL, and all the other slots, are unchanged (processes
are stopped only by `cleanup`/`stop_screen`, never by release); for an
unknown display number it returns `false` without touching any slot (and,
being a total function, never raises). -/
theorem release_screen_frame (l : Screens) (display_num : Nat) :
    ((release_screen l display_num).2 = true ↔ display_num ∈ l.map (·.1)) ∧
    (((release_screen l display_num).1).map (·.1) = l.map (·.1)) ∧
    (∀ p ∈ l, p.1 ≠ display_num → p ∈ (release_screen l display_num).1) ∧
    (∀ p ∈ l, p.1 = display_num →
      (display_num, { p.2 with in_use := false }) ∈ (release_screen l display_num).1) ∧
    (display_num ∉ l.map (·.1) → (release_screen l display_num).1 = l) := by
  refine ⟨?_, release_screen_keys l display_num,
    fun p hp hne => release_screen_mem_ne l display_num p hp hne,
    fun p hp heq => release_screen_mem_eq l display_num p hp heq, ?_⟩
  · constructor
    · intro htrue
      by_contra hnot
      rw [release_screen_unknown l display_num hnot] at htrue
      exact Bool.false_ne_true htrue
    · intro hmem
      rw [release_screen_known l display_num hmem]
  · intro hnot
    rw [release_screen_unknown l display_num hnot]

/-! ## BrowserManager (browser_manager.py) -/

/-- The exceptions the create/close paths can raise:
`RuntimeError("BrowserManager not initialized")`,
`ValueError("Unsupported browser type ...")`, an engine launch failure
(playwright error from `browser_instance.launch`), an engine close failure
(from `browser_data["instance"].close()`), and
`RuntimeError("Maximum number of sessions reached ...")`. -/
inductive SvcError where
  | notInitialized
  | unsupportedType
  | launchFailure
  | closeFailure
  | capacity
deriving DecidableEq, Repr

/-- One record of `BrowserManager.browsers`: the fields relevant to the
session core (`instance` is the opaque engine handle, identified here by
`id`; `context_ok` models `context_data is not None`). -/
structure BrowserData where
  id : String
  browser_type : String
  headless : Bool
  display_num : Option Nat
  vnc_url : Option String
  context_ok : Bool
deriving DecidableEq, Repr

/-- `BrowserManager` state: the playwright-initialized flag, the screen
pool, the `browsers` dict and the `browser_displays` dict. -/
structure BrowserState where
  initialized : Bool
  screens : Screens
  browsers : List (String × BrowserData)
  browser_displays : List (String × Nat)
deriving Repr

/-- The keys of `browser_types` in `create_browser_instance`. -/
def supported_types : List String := ["chromium", "firefox", "webkit"]

/-- `BrowserManager.create_browser_instance`.  Oracles: `startOk`/`vncOk`
drive the screen pool, `launchOk` says whether `browser_instance.launch`
succeeds (when it does not, the Python code has no handler: the exception
propagates with the state as it stands at the launch site), `contextOk`
whether the visible context/page creation succeeds (its failure is caught
and tolerated), `ws` the CDP endpoint the engine reports, `browser_id` the
fresh uuid.  Returns the new state and either the error raised or
`(browser_data, cdp_url)`. -/
def create_browser_instance (st : BrowserState) (browser_type : String)
    (headless : Bool) (startOk vncOk : Nat → Bool) (launchOk contextOk : Bool)
    (ws browser_id : String) :
    BrowserState × Except SvcError (BrowserData × String) :=
  if ¬ st.initialized then (st, .error .notInitialized)
  else if ¬ supported_types.contains browser_type then (st, .error .unsupportedType)
  else
    -- For headed browsers, get an available virtual display.
    let acq := if headless then (st.screens, none, none)
               else get_available_screen startOk vncOk st.screens
    let display_num : Option Nat := acq.2.1
    let vnc_url : Option String := acq.2.2
    -- "No available virtual displays. Falling back to headless mode."
    let headless' := headless || display_num.isNone
    let st1 : BrowserState := { st with screens := acq.1 }
    if ¬ launchOk then (st1, .error .launchFailure)
    else
      let cdp_url := if browser_type = "chromium" then ws else ""
      let context_ok := !headless' && contextOk
      let bd : BrowserData :=
        { id := browser_id, browser_type := browser_type, headless := headless',
          display_num := display_num, vnc_url := vnc_url, context_ok := context_ok }
      let st2 : BrowserState :=
        { st1 with
          browsers := st1.browsers ++ [(browser_id, bd)],
          browser_displays :=
            match display_num with
            | some d => st1.browser_displays ++ [(browser_id, d)]
            | none => st1.browser_displays }
      (st2, .ok (bd, cdp_url))

/-- `BrowserManager.close_browser`.  `closeOk` says whether
`browser_data["instance"].close()` succeeds; when it raises, the Python code
has no handler around that call, so the error propagates after the two pops
but before `release_screen`.  Context/page close failures are caught and
logged, so they have no effect here. -/
def close_browser (st : BrowserState) (browser_id : String) (closeOk : Bool) :
    BrowserState × Except SvcError Bool :=
  let bd := st.browsers.lookup browser_id
  let display_num := st.browser_displays.lookup browser_id
  let st1 : BrowserState :=
    { st with
      browsers := st.browsers.filter (fun p => p.1 != browser_id),
      browser_displays := st.browser_displays.filter (fun p => p.1 != browser_id) }
  match bd with
  | none => (st1, .ok false)
  | some _ =>
    if ¬ closeOk then (st1, .error .closeFailure)
    else
      match display_num with
      | some d => ({ st1 with screens := (release_screen st1.screens d).1 }, .ok true)
      | none => (st1, .ok true)

/-! ## SessionManager (session_manager.py) -/

/-- One record of `SessionManager.sessions` (also what `SessionResponse`
echoes back; timestamps are modelled as integers). -/
structure Session where
  id : String
  browser_id : String
  browser_type : String
  headless : Bool
  created_at : Int
  expires_at : Int
  cdp_url : String
  viewport_width : Nat
  viewport_height : Nat
  user_agent : Option String
deriving DecidableEq, Repr

/-- The whole server state: the browser manager and the `sessions` dict. -/
structure ServerState where
  bm : BrowserState
  sessions : List (String × Session)
deriving Repr

/-- `settings.DEFAULT_VIEW_WIDTH` / `settings.DEFAULT_VIEW_HEIGHT`
(config.py defaults). -/
def DEFAULT_VIEW_WIDTH : Nat := 1280
def DEFAULT_VIEW_HEIGHT : Nat := 720

/-- `SessionManager.create_session`.  `max_sessions` is
`settings.MAX_SESSIONS`; `now` the `datetime.now()` reading; `session_id`
the fresh uuid.  The capacity check happens first, under the lock, before
any resource work; note that the stored record's `headless` field is the
*requested* value (the local variable of `create_session`), not the
effective mode chosen inside `create_browser_instance`. -/
def create_session (st : ServerState) (max_sessions : Nat) (browser_type : String)
    (headless : Bool) (viewport_size : Option (Nat × Nat)) (user_agent : Option String)
    (timeout : Int) (now : Int) (startOk vncOk : Nat → Bool)
    (launchOk contextOk : Bool) (ws browser_id session_id : String) :
    ServerState × Except SvcError Session :=
  if st.sessions.length ≥ max_sessions then (st, .error .capacity)
  else
    let vp := viewport_size.getD (DEFAULT_VIEW_WIDTH, DEFAULT_VIEW_HEIGHT)
    let r := create_browser_instance st.bm browser_type headless startOk vncOk
      launchOk contextOk ws browser_id
    match r.2 with
    | .error e => ({ st with bm := r.1 }, .error e)
    | .ok (bd, cdp_url) =>
      let session : Session :=
        { id := session_id, browser_id := bd.id, browser_type := browser_type,
          headless := headless, created_at := now, expires_at := now + timeout,
          cdp_url := cdp_url, viewport_width := vp.1, viewport_height := vp.2,
          user_agent := user_agent }
      ({ bm := r.1, sessions := st.sessions ++ [(session_id, session)] }, .ok session)

/-- `SessionManager.delete_session`: pop the record under the lock (absent →
`False`, a negative result, not an error), then `close_browser` the popped
record's browser; an engine-close exception propagates out of
`delete_session` (the registry entry is already gone by then). -/
def delete_session (st : ServerState) (session_id : String)
    (closeOk : String → Bool) : ServerState × Except SvcError Bool :=
  let s := st.sessions.lookup session_id
  let st1 : ServerState :=
    { st with sessions := st.sessions.filter (fun p => p.1 != session_id) }
  match s with
  | none => (st1, .ok false)
  | some session =>
    let r := close_browser st1.bm session.browser_id (closeOk session.browser_id)
    match r.2 with
    | .error e => ({ st1 with bm := r.1 }, .error e)
    | .ok _ => ({ st1 with bm := r.1 }, .ok true)

/-- The deletion loop of `_cleanup_expired_sessions`: the snapshot of ids is
deleted one by one through `delete_session`; the loop has no handler, so a
deletion error stops the sweep. -/
def delete_each (closeOk : String → Bool) :
    ServerState → List String → ServerState × Except SvcError Unit
  | st, [] => (st, .ok ())
  | st, sid :: rest =>
    let r := delete_session st sid closeOk
    match r.2 with
    | .error e => (r.1, .error e)
    | .ok _ => delete_each closeOk r.1 rest

/-- `SessionManager._cleanup_expired_sessions`: take `now`, snapshot (under
the lock) the ids of sessions with `expires_at < now` — note the strict
comparison — then delete each through `delete_session`. -/
def cleanup_expired_sessions (st : ServerState) (now : Int)
    (closeOk : String → Bool) : ServerState × Except SvcError Unit :=
  let to_remove :=
    (st.sessions.filter (fun p => decide (p.2.expires_at < now))).map (·.1)
  delete_each closeOk st to_remove

/-! ### Association-list (dict) helper lemmas -/

theorem lookup_eq_none_iff {β : Type} (l : List (String × β)) (k : String) :
    l.lookup k = none ↔ ∀ p ∈ l, p.1 ≠ k := by
  induction l with
  | nil => simp
  | cons q rest ih =>
    by_cases hq : k = q.1
    · simp [List.lookup, hq]
    · simp only [List.lookup, beq_eq_false_iff_ne.mpr hq, ih, List.mem_cons]
      constructor
      · intro h p hp
        rcases hp with hp | hp
        · subst hp; exact fun hc => hq hc.symm
        · exact h p hp
      · intro h p hp
        exact h p (Or.inr hp)

theorem lookup_filter_ne {β : Type} (l : List (String × β)) (k : String) :
    (l.filter (fun p => p.1 != k)).lookup k = none := by
  rw [lookup_eq_none_iff]
  intro p hp
  have := List.of_mem_filter hp
  simpa using this

theorem filter_ne_of_lookup_none {β : Type} (l : List (String × β)) (k : String)
    (h : l.lookup k = none) : l.filter (fun p => p.1 != k) = l := by
  rw [List.filter_eq_self]
  intro p hp
  have := (lookup_eq_none_iff l k).mp h p hp
  simpa using this

theorem lookup_append_right {β : Type} (l : List (String × β)) (k : String) (v : β)
    (h : l.lookup k = none) : (l ++ [(k, v)]).lookup k = some v := by
  induction l with
  | nil => simp [List.lookup]
  | cons q rest ih =>
    by_cases hq : k = q.1
    · simp [List.lookup, hq] at h
    · simp only [List.cons_append, List.lookup, beq_eq_false_iff_ne.mpr hq]
      simp only [List.lookup, beq_eq_false_iff_ne.mpr hq] at h
      exact ih h

theorem keys_nodup_val_eq {α β : Type} {l : List (α × β)}
    (hnd : (l.map (·.1)).Nodup) {k : α} {a b : β}
    (ha : (k, a) ∈ l) (hb : (k, b) ∈ l) : a = b := by
  induction l with
  | nil => cases ha
  | cons q rest ih =>
    simp only [List.map_cons, List.nodup_cons] at hnd
    rcases List.mem_cons.mp ha with ha' | ha' <;> rcases List.mem_cons.mp hb with hb' | hb'
    · exact (Prod.mk.inj (ha'.trans hb'.symm)).2
    · have hq : q.1 = k := by rw [← ha']
      exact absurd (List.mem_map.mpr ⟨(k, b), hb', rfl⟩) (hq ▸ hnd.1)
    · have hq : q.1 = k := by rw [← hb']
      exact absurd (List.mem_map.mpr ⟨(k, a), ha', rfl⟩) (hq ▸ hnd.1)
    · exact ih hnd.2 ha' hb'

/-! ### Claim C4: the capacity check -/

theorem create_browser_instance_ne_capacity (st : BrowserState) (bt : String)
    (hl : Bool) (so vo : Nat → Bool) (lok cok : Bool) (ws bid : String) :
    (create_browser_instance st bt hl so vo lok cok ws bid).2
      ≠ Except.error SvcError.capacity := by
  unfold create_browser_instance
  split_ifs
  all_goals simp

/-- C4: when the session count has already reached `MAX_SESSIONS`,
`create_session` fails with the capacity error and changes nothing at all
(no slot acquired, no engine launched, registry untouched); below the
maximum, the capacity check never rejects a creation. -/
theorem create_session_capacity (st : ServerState) (max_sessions : Nat)
    (browser_type : String) (headless : Bool) (viewport_size : Option (Nat × Nat))
    (user_agent : Option String) (timeout now : Int) (startOk vncOk : Nat → Bool)
    (launchOk contextOk : Bool) (ws browser_id session_id : String) :
    (st.sessions.length ≥ max_sessions →
      create_session st max_sessions browser_type headless viewport_size user_agent
          timeout now startOk vncOk launchOk contextOk ws browser_id session_id
        = (st, Except.error SvcError.capacity)) ∧
    (st.sessions.length < max_sessions →
      (create_session st max_sessions browser_type headless viewport_size user_agent
          timeout now startOk vncOk launchOk contextOk ws browser_id session_id).2
        ≠ Except.error SvcError.capacity) := by
  constructor
  · intro hge
    unfold create_session
    rw [if_pos hge]
  · intro hlt
    unfold create_session
    rw [if_neg (not_le.mpr hlt)]
    cases hr : (create_browser_instance st.bm browser_type headless startOk vncOk
        launchOk contextOk ws browser_id).2 with
    | error e =>
      have hne := create_browser_instance_ne_capacity st.bm browser_type headless
        startOk vncOk launchOk contextOk ws browser_id
      rw [hr] at hne
      simp only [hr]
      intro hc
      exact hne (by simpa using hc)
    | ok v =>
      obtain ⟨bd, cdp⟩ := v
      simp [hr]

/-! ### Claim C2 (code bug): launch failure leaks the acquired slot

`create_browser_instance` has no handler around
`browser_instance.launch(**launch_options)` (browser_manager.py line 104):
when the engine launch raises after a display was acquired at line 56, the
exception propagates and nothing releases the display. -/

/-- A fresh manager with one display slot, as the failing input for C2. -/
def bm_launch_fail : BrowserState :=
  { initialized := true, screens := init_screens 1 99 5900 "host",
    browsers := [], browser_displays := [] }

/-- C2 (code bug, evaluated at the failing input): headed creation acquires
display 99, the engine launch fails, the launch error propagates — and slot
99 is left with `in_use = true`: the acquired slot is NOT released before
the error reaches the caller. -/
theorem launch_failure_leaks_slot :
    ((create_browser_instance bm_launch_fail "chromium" false (fun _ => true)
        (fun _ => true) false true "ws" "b1").2
      = Except.error SvcError.launchFailure) ∧
    (((create_browser_instance bm_launch_fail "chromium" false (fun _ => true)
        (fun _ => true) false true "ws" "b1").1.screens.lookup 99).map (·.in_use)
      = some true) :=
  ⟨rfl, rfl⟩

/-! ### Claim C3 (code bug): engine-close failure skips the slot release

`close_browser` guards the context/page close with try/except, but the
engine-handle close `browser_data["instance"].close()` (browser_manager.py
line 192) has no handler: when it raises, `release_screen` (line 196) is
never reached, so the slot stays leased forever (the `browser_displays`
entry was already popped, so nothing can release it later). -/

def c3_screen : Screen :=
  { in_use := true, xvfb_alive := true, vnc_alive := true, width := 1280,
    height := 1024, depth := 24, vnc_port := 5900, vnc_url := "vnc://host:5900" }

def c3_bd : BrowserData :=
  { id := "b1", browser_type := "chromium", headless := false,
    display_num := some 99, vnc_url := some "vnc://host:5900", context_ok := true }

def c3_session : Session :=
  { id := "s1", browser_id := "b1", browser_type := "chromium", headless := false,
    created_at := 0, expires_at := 300, cdp_url := "ws", viewport_width := 1280,
    viewport_height := 720, user_agent := none }

def c3_state : ServerState :=
  { bm := { initialized := true, screens := [(99, c3_screen)],
            browsers := [("b1", c3_bd)], browser_displays := [("b1", 99)] },
    sessions := [("s1", c3_session)] }

/-- C3 (code bug, evaluated at the failing input): deleting a session whose
engine-close call fails does remove it from the registry, but the close
error propagates out of `delete_session` and the session's display slot is
NOT released (`in_use` stays `true`) — engine-close failures are not
tolerated on the slot-release path. -/
theorem close_failure_leaks_slot :
    ((delete_session c3_state "s1" (fun _ => false)).2
      = Except.error SvcError.closeFailure) ∧
    ((delete_session c3_state "s1" (fun _ => false)).1.sessions.lookup "s1" = none) ∧
    (((delete_session c3_state "s1" (fun _ => false)).1.bm.screens.lookup 99).map
        (·.in_use) = some true) :=
  ⟨rfl, rfl, rfl⟩

/-! ### Lemmas about `close_browser` and `delete_session` -/

theorem close_browser_snd_ok (st : BrowserState) (bid : String) :
    (close_browser st bid true).2 = .ok ((st.browsers.lookup bid).isSome) := by
  unfold close_browser
  cases st.browsers.lookup bid with
  | none => rfl
  | some bd =>
    simp only [Option.isSome_some]
    cases st.browser_displays.lookup bid <;> simp

theorem close_browser_browsers (st : BrowserState) (bid : String) (ok : Bool) :
    (close_browser st bid ok).1.browsers
      = st.browsers.filter (fun p => p.1 != bid) := by
  unfold close_browser
  cases st.browsers.lookup bid with
  | none => rfl
  | some bd =>
    by_cases hok : ok
    · simp only [hok]
      cases st.browser_displays.lookup bid <;> simp
    · simp [hok]

theorem close_browser_screens (st : BrowserState) (bid : String) (d : Nat)
    (hbd : (st.browsers.lookup bid).isSome = true)
    (hdisp : st.browser_displays.lookup bid = some d) :
    (close_browser st bid true).1.screens = (release_screen st.screens d).1 := by
  unfold close_browser
  obtain ⟨bd, hbd'⟩ := Option.isSome_iff_exists.mp hbd
  rw [hbd', hdisp]
  simp

theorem delete_session_not_found (st : ServerState) (sid : String)
    (closeOk : String → Bool) (h : st.sessions.lookup sid = none) :
    delete_session st sid closeOk
      = ({ st with sessions := st.sessions.filter (fun p => p.1 != sid) },
         .ok false) := by
  unfold delete_session
  rw [h]

theorem delete_session_found (st : ServerState) (sid : String)
    (closeOk : String → Bool) (s : Session)
    (hs : st.sessions.lookup sid = some s) (hok : closeOk s.browser_id = true) :
    ((delete_session st sid closeOk).2 = .ok true) ∧
    ((delete_session st sid closeOk).1.sessions
      = st.sessions.filter (fun p => p.1 != sid)) ∧
    ((delete_session st sid closeOk).1.bm.browsers
      = st.bm.browsers.filter (fun p => p.1 != s.browser_id)) := by
  unfold delete_session
  rw [hs]
  simp only [hok]
  have h2 := close_browser_snd_ok st.bm s.browser_id
  cases hr : (close_browser st.bm s.browser_id true).2 with
  | error e =>
    rw [hr] at h2
    simp at h2
  | ok b =>
    simp only [hr]
    exact ⟨trivial, trivial, close_browser_browsers st.bm s.browser_id true⟩

theorem delete_session_screens (st : ServerState) (sid : String)
    (closeOk : String → Bool) (s : Session) (d : Nat)
    (hs : st.sessions.lookup sid = some s) (hok : closeOk s.browser_id = true)
    (hbd : (st.bm.browsers.lookup s.browser_id).isSome = true)
    (hdisp : st.bm.browser_displays.lookup s.browser_id = some d) :
    (delete_session st sid closeOk).1.bm.screens
      = (release_screen st.bm.screens d).1 := by
  unfold delete_session
  rw [hs]
  simp only [hok]
  cases hr : (close_browser st.bm s.browser_id true).2 with
  | error e =>
    simp only [hr]
    exact close_browser_screens st.bm s.browser_id d hbd hdisp
  | ok b =>
    simp only [hr]
    exact close_browser_screens st.bm s.browser_id d hbd hdisp

/-- C6: deleting the same session id twice succeeds exactly once — the first
call returns `True` after closing the engine handle and releasing resources:
the session and its browser disappear from their registries, and when the
session's browser holds a display slot, that slot is released (the screens
table is exactly `release_screen` of the old one, the slot's `in_use`
flipped to `false`); the second call returns `False` (a negative result,
not an error) and changes nothing: no further engine close, no further slot
release. -/
theorem delete_session_twice (st : ServerState) (session_id : String)
    (closeOk : String → Bool) (s : Session)
    (hs : st.sessions.lookup session_id = some s)
    (hok : closeOk s.browser_id = true) :
    ((delete_session st session_id closeOk).2 = .ok true) ∧
    ((delete_session st session_id closeOk).1.sessions.lookup session_id = none) ∧
    ((delete_session st session_id closeOk).1.bm.browsers.lookup s.browser_id
      = none) ∧
    (∀ d : Nat,
      st.bm.browser_displays.lookup s.browser_id = some d →
      (st.bm.browsers.lookup s.browser_id).isSome = true →
      (delete_session st session_id closeOk).1.bm.screens
        = (release_screen st.bm.screens d).1) ∧
    (∀ d : Nat, ∀ p ∈ st.bm.screens,
      st.bm.browser_displays.lookup s.browser_id = some d →
      (st.bm.browsers.lookup s.browser_id).isSome = true →
      p.1 = d →
      (d, { p.2 with in_use := false })
        ∈ (delete_session st session_id closeOk).1.bm.screens) ∧
    (delete_session (delete_session st session_id closeOk).1 session_id closeOk
      = ((delete_session st session_id closeOk).1, .ok false)) := by
  obtain ⟨hret, hsess, hbrs⟩ := delete_session_found st session_id closeOk s hs hok
  have hnone : (delete_session st session_id closeOk).1.sessions.lookup session_id
      = none := by
    rw [hsess]; exact lookup_filter_ne _ _
  refine ⟨hret, hnone, by rw [hbrs]; exact lookup_filter_ne _ _, ?_, ?_, ?_⟩
  · intro d hdisp hbd
    exact delete_session_screens st session_id closeOk s d hs hok hbd hdisp
  · intro d p hp hdisp hbd hpd
    rw [delete_session_screens st session_id closeOk s d hs hok hbd hdisp]
    exact release_screen_mem_eq st.bm.screens d p hp hpd
  · rw [delete_session_not_found _ _ _ hnone]
    have hfix : (delete_session st session_id closeOk).1.sessions.filter
        (fun p => p.1 != session_id)
        = (delete_session st session_id closeOk).1.sessions :=
      filter_ne_of_lookup_none _ _ hnone
    rw [hfix]

/-! ### The headless downgrade path (claims C7 and C10) -/

theorem get_available_screen_none_snd (so vo : Nat → Bool) (l : Screens)
    (hnone : (get_available_screen so vo l).2.1 = none) :
    (get_available_screen so vo l).2.2 = none := by
  induction l with
  | nil => rfl
  | cons p rest ih =>
    obtain ⟨d, s⟩ := p
    rw [get_available_screen_cons] at hnone ⊢
    by_cases h1 : s.in_use
    · simp only [h1, if_true] at hnone ⊢
      exact ih (by simpa using hnone)
    · by_cases h2 : (start_screen so vo d s.width s.height s.depth s).2.1
      · simp [h1, h2] at hnone
      · simp only [h1, Bool.false_eq_true, if_false, h2] at hnone ⊢
        exact ih (by simpa using hnone)

/-- When a headed (`headless = False`) creation finds the display pool
exhausted, `create_session` still succeeds: the browser is launched in
headless mode, no display is attached, and the stored session record keeps
the requested `headless = False`. -/
theorem create_session_downgrade_core (st : ServerState) (ms : Nat)
    (browser_type : String) (vp : Option (Nat × Nat)) (ua : Option String)
    (tmo now : Int) (so vo : Nat → Bool) (cok : Bool) (ws bid sid : String)
    (hcap : st.sessions.length < ms)
    (hinit : st.bm.initialized = true)
    (hbt : supported_types.contains browser_type = true)
    (hfull : (get_available_screen so vo st.bm.screens).2.1 = none) :
    ∃ (bd : BrowserData) (sess : Session),
      create_session st ms browser_type false vp ua tmo now so vo true cok ws bid sid
        = ({ bm := { initialized := st.bm.initialized,
                     screens := st.bm.screens,
                     browsers := st.bm.browsers ++ [(bid, bd)],
                     browser_displays := st.bm.browser_displays },
             sessions := st.sessions ++ [(sid, sess)] },
           .ok sess) ∧
      bd.id = bid ∧ bd.headless = true ∧ bd.display_num = none ∧
      sess.id = sid ∧ sess.browser_id = bid ∧ sess.headless = false := by
  have hsnd := get_available_screen_none_snd so vo st.bm.screens hfull
  have hfr := get_available_screen_none_frame so vo st.bm.screens hfull
  refine ⟨{ id := bid, browser_type := browser_type, headless := true,
            display_num := none, vnc_url := none, context_ok := false },
          { id := sid, browser_id := bid, browser_type := browser_type,
            headless := false, created_at := now, expires_at := now + tmo,
            cdp_url := if browser_type = "chromium" then ws else "",
            viewport_width := (vp.getD (DEFAULT_VIEW_WIDTH, DEFAULT_VIEW_HEIGHT)).1,
            viewport_height := (vp.getD (DEFAULT_VIEW_WIDTH, DEFAULT_VIEW_HEIGHT)).2,
            user_agent := ua },
          ?_, rfl, rfl, rfl, rfl, rfl, rfl⟩
  unfold create_session create_browser_instance
  rw [if_neg (not_le.mpr hcap)]
  simp only [hinit, hbt, hfull, hsnd, hfr, Bool.not_eq_true, not_true,
    Bool.false_eq_true, if_false, ite_true, ite_false, Option.isNone_none,
    Bool.or_true, Bool.false_or, Bool.not_true, Bool.false_and, Bool.and_false,
    not_false_eq_true]

/-- C7: a headed (`headless = False`) `create_session` issued when the pool
has no free slot (`get_available_screen` returns `None`) does not fail from
display exhaustion: the creation proceeds downgraded to headless, the
session's browser records no display number, the display-ownership map gains
no entry, and the slot table is untouched. -/
theorem create_session_display_exhaustion (st : ServerState) (ms : Nat)
    (browser_type : String) (vp : Option (Nat × Nat)) (ua : Option String)
    (tmo now : Int) (so vo : Nat → Bool) (cok : Bool) (ws bid sid : String)
    (hcap : st.sessions.length < ms)
    (hinit : st.bm.initialized = true)
    (hbt : supported_types.contains browser_type = true)
    (hfull : (get_available_screen so vo st.bm.screens).2.1 = none)
    (hfresh : st.bm.browsers.lookup bid = none) :
    (∃ sess : Session,
      (create_session st ms browser_type false vp ua tmo now so vo true cok
          ws bid sid).2 = .ok sess) ∧
    ((create_session st ms browser_type false vp ua tmo now so vo true cok
        ws bid sid).1.bm.browser_displays = st.bm.browser_displays) ∧
    ((create_session st ms browser_type false vp ua tmo now so vo true cok
        ws bid sid).1.bm.screens = st.bm.screens) ∧
    (∃ bd : BrowserData,
      (create_session st ms browser_type false vp ua tmo now so vo true cok
          ws bid sid).1.bm.browsers.lookup bid = some bd ∧
      bd.display_num = none ∧ bd.headless = true) := by
  obtain ⟨bd, sess, heq, _, hbdh, hbdd, _, _, _⟩ :=
    create_session_downgrade_core st ms browser_type vp ua tmo now so vo cok
      ws bid sid hcap hinit hbt hfull
  rw [heq]
  exact ⟨⟨sess, rfl⟩, rfl, rfl, ⟨bd, lookup_append_right _ bid bd hfresh, hbdd, hbdh⟩⟩

/-- C10: when a headed request is downgraded to headless because no display
slot was free, the stored session record and the returned response still
report the requested `headless = False`; only the internal browser data
records the effective `headless = True`, so a caller inspecting the session
cannot see the downgrade. -/
theorem downgraded_session_reports_requested_headless (st : ServerState) (ms : Nat)
    (browser_type : String) (vp : Option (Nat × Nat)) (ua : Option String)
    (tmo now : Int) (so vo : Nat → Bool) (cok : Bool) (ws bid sid : String)
    (hcap : st.sessions.length < ms)
    (hinit : st.bm.initialized = true)
    (hbt : supported_types.contains browser_type = true)
    (hfull : (get_available_screen so vo st.bm.screens).2.1 = none)
    (hfreshb : st.bm.browsers.lookup bid = none)
    (hfreshs : st.sessions.lookup sid = none) :
    (∃ sess : Session,
      (create_session st ms browser_type false vp ua tmo now so vo true cok
          ws bid sid).2 = .ok sess ∧ sess.headless = false) ∧
    (∃ sess : Session,
      (create_session st ms browser_type false vp ua tmo now so vo true cok
          ws bid sid).1.sessions.lookup sid = some sess ∧ sess.headless = false) ∧
    (∃ bd : BrowserData,
      (create_session st ms browser_type false vp ua tmo now so vo true cok
          ws bid sid).1.bm.browsers.lookup bid = some bd ∧ bd.headless = true) := by
  obtain ⟨bd, sess, heq, _, hbdh, _, _, _, hsessh⟩ :=
    create_session_downgrade_core st ms browser_type vp ua tmo now so vo cok
      ws bid sid hcap hinit hbt hfull
  rw [heq]
  exact ⟨⟨sess, rfl, hsessh⟩,
         ⟨sess, lookup_append_right _ sid sess hfreshs, hsessh⟩,
         ⟨bd, lookup_append_right _ bid bd hfreshb, hbdh⟩⟩

/-! ### The expiry reaper (claim C5) -/

theorem delete_session_ok (st : ServerState) (sid : String) (closeOk : String → Bool)
    (hall : ∀ b, closeOk b = true) :
    ((delete_session st sid closeOk).1.sessions
      = st.sessions.filter (fun p => p.1 != sid)) ∧
    (∃ b, (delete_session st sid closeOk).2 = .ok b) := by
  cases hs : st.sessions.lookup sid with
  | none =>
    rw [delete_session_not_found st sid closeOk hs]
    exact ⟨rfl, false, rfl⟩
  | some s =>
    obtain ⟨h1, h2, _⟩ := delete_session_found st sid closeOk s hs (hall s.browser_id)
    exact ⟨h2, true, h1⟩

theorem delete_each_sessions (closeOk : String → Bool) (hall : ∀ b, closeOk b = true)
    (ids : List String) : ∀ st : ServerState,
    ((delete_each closeOk st ids).1.sessions
      = st.sessions.filter (fun p => decide (p.1 ∉ ids))) ∧
    ((delete_each closeOk st ids).2 = .ok ()) := by
  induction ids with
  | nil =>
    intro st
    refine ⟨?_, rfl⟩
    simp [delete_each]
  | cons sid rest ih =>
    intro st
    obtain ⟨hsess, b, hok⟩ := delete_session_ok st sid closeOk hall
    unfold delete_each
    simp only [hok]
    obtain ⟨ihs, ihr⟩ := ih (delete_session st sid closeOk).1
    refine ⟨?_, ihr⟩
    rw [ihs, hsess, List.filter_filter]
    refine List.filter_congr ?_
    intro a _
    by_cases h1 : a.1 = sid <;> by_cases h2 : a.1 ∈ rest <;> simp [h1, h2]

/-! The reaper's selection uses the strict comparison
`session["expires_at"] < now` (session_manager.py line 38), so a session
whose `expires_at` equals the sweep's `now` is NOT selected — against the
spec's "at or before now". -/

def c5_session : Session :=
  { id := "s1", browser_id := "b1", browser_type := "chromium", headless := true,
    created_at := 0, expires_at := 5, cdp_url := "", viewport_width := 1280,
    viewport_height := 720, user_agent := none }

def c5_state : ServerState :=
  { bm := { initialized := true, screens := [], browsers := [],
            browser_displays := [] },
    sessions := [("s1", c5_session)] }

/-- C5 counterexample: a session whose `expires_at` equals the sweep's
`now` (5) — so its expiry is "at or before now" — survives the sweep: the
registry is unchanged, refuting the claim that the sweep selects every
session with `expires_at` at or before `now`. -/
theorem reaper_keeps_boundary_session :
    (c5_session.expires_at ≤ (5 : Int)) ∧
    ((cleanup_expired_sessions c5_state 5 (fun _ => true)).1.sessions
      = [("s1", c5_session)]) :=
  ⟨by decide, rfl⟩

/-- C5 (amended): each sweep selects exactly the sessions whose
`expires_at` is strictly before the sweep's `now`, deletes each of them
through the same `delete_session` path as a manual delete (the sweep is
literally the `delete_session` loop over that snapshot), and leaves every
session with `expires_at` at-or-after `now` in the registry. -/
theorem reaper_sweep_selects_strictly_expired (st : ServerState) (now : Int)
    (closeOk : String → Bool) (hall : ∀ b, closeOk b = true)
    (hnd : (st.sessions.map (·.1)).Nodup) :
    ((cleanup_expired_sessions st now closeOk).1.sessions
      = st.sessions.filter (fun p => !decide (p.2.expires_at < now))) ∧
    ((cleanup_expired_sessions st now closeOk).2 = .ok ()) ∧
    (cleanup_expired_sessions st now closeOk
      = delete_each closeOk st
          ((st.sessions.filter (fun p => decide (p.2.expires_at < now))).map (·.1))) := by
  refine ⟨?_, (delete_each_sessions closeOk hall _ st).2, rfl⟩
  have h := (delete_each_sessions closeOk hall
      ((st.sessions.filter (fun p => decide (p.2.expires_at < now))).map (·.1)) st).1
  rw [show cleanup_expired_sessions st now closeOk
      = delete_each closeOk st
          ((st.sessions.filter (fun p => decide (p.2.expires_at < now))).map (·.1))
    from rfl, h]
  refine List.filter_congr ?_
  intro a ha
  obtain ⟨ak, av⟩ := a
  by_cases hexp : av.expires_at < now
  · have hmem : ak ∈ (st.sessions.filter
        (fun p => decide (p.2.expires_at < now))).map (·.1) :=
      List.mem_map.mpr ⟨(ak, av), List.mem_filter.mpr ⟨ha, by simpa using hexp⟩, rfl⟩
    simp [hexp, hmem]
  · have hnot : ak ∉ (st.sessions.filter
        (fun p => decide (p.2.expires_at < now))).map (·.1) := by
      intro hc
      obtain ⟨⟨qk, qv⟩, hq, hq1⟩ := List.mem_map.mp hc
      obtain ⟨hqmem, hqexp⟩ := List.mem_filter.mp hq
      simp only at hq1
      subst hq1
      have hval : qv = av := keys_nodup_val_eq hnd hqmem ha
      rw [hval] at hqexp
      exact hexp (by simpa using hqexp)
    simp [hexp, hnot]

/-! ### Concrete witnesses -/

def c5w_expired : Session := { c5_session with id := "s0", expires_at := 3 }

def c5w_live : Session := { c5_session with id := "s2", expires_at := 9 }

def c5w_state : ServerState :=
  { bm := { initialized := true, screens := [], browsers := [],
            browser_displays := [] },
    sessions := [("s0", c5w_expired), ("s2", c5w_live)] }

/-- C5 witness: a sweep at `now = 5` over one session expired at 3 and one
live until 9 deletes exactly the expired one. -/
theorem reaper_sweep_selects_strictly_expired_witness :
    ((cleanup_expired_sessions c5w_state 5 (fun _ => true)).1.sessions
      = c5w_state.sessions.filter (fun p => !decide (p.2.expires_at < 5))) ∧
    ((cleanup_expired_sessions c5w_state 5 (fun _ => true)).2 = .ok ()) ∧
    (cleanup_expired_sessions c5w_state 5 (fun _ => true)
      = delete_each (fun _ => true) c5w_state
          ((c5w_state.sessions.filter
              (fun p => decide (p.2.expires_at < 5))).map (·.1))) :=
  reaper_sweep_selects_strictly_expired c5w_state 5 (fun _ => true)
    (fun _ => rfl) (by decide)

/-- C6 witness: deleting session "s1" of `c3_state` twice (with the engine
close succeeding) returns `True` then `False`; the first call releases the
held display 99, the second changes nothing. -/
theorem delete_session_twice_witness :
    ((delete_session c3_state "s1" (fun _ => true)).2 = .ok true) ∧
    ((delete_session c3_state "s1" (fun _ => true)).1.sessions.lookup "s1"
      = none) ∧
    ((delete_session c3_state "s1" (fun _ => true)).1.bm.browsers.lookup
        c3_session.browser_id = none) ∧
    (∀ d : Nat,
      c3_state.bm.browser_displays.lookup c3_session.browser_id = some d →
      (c3_state.bm.browsers.lookup c3_session.browser_id).isSome = true →
      (delete_session c3_state "s1" (fun _ => true)).1.bm.screens
        = (release_screen c3_state.bm.screens d).1) ∧
    (∀ d : Nat, ∀ p ∈ c3_state.bm.screens,
      c3_state.bm.browser_displays.lookup c3_session.browser_id = some d →
      (c3_state.bm.browsers.lookup c3_session.browser_id).isSome = true →
      p.1 = d →
      (d, { p.2 with in_use := false })
        ∈ (delete_session c3_state "s1" (fun _ => true)).1.bm.screens) ∧
    (delete_session (delete_session c3_state "s1" (fun _ => true)).1 "s1"
        (fun _ => true)
      = ((delete_session c3_state "s1" (fun _ => true)).1, .ok false)) :=
  delete_session_twice c3_state "s1" (fun _ => true) c3_session rfl rfl

/-- A server whose single display slot is already leased: the pool is
exhausted for the next headed creation. -/
def c7_state : ServerState :=
  { bm := { initialized := true, screens := [(99, c3_screen)], browsers := [],
            browser_displays := [] },
    sessions := [] }

/-- C7 witness: with the one slot in use, a headed creation succeeds
downgraded: no display recorded, slot table untouched. -/
theorem create_session_display_exhaustion_witness :
    (∃ sess : Session,
      (create_session c7_state 10 "chromium" false none none 300 0
          (fun _ => true) (fun _ => true) true true "ws" "b1" "s1").2
        = .ok sess) ∧
    ((create_session c7_state 10 "chromium" false none none 300 0
        (fun _ => true) (fun _ => true) true true "ws" "b1" "s1").1.bm.browser_displays
      = c7_state.bm.browser_displays) ∧
    ((create_session c7_state 10 "chromium" false none none 300 0
        (fun _ => true) (fun _ => true) true true "ws" "b1" "s1").1.bm.screens
      = c7_state.bm.screens) ∧
    (∃ bd : BrowserData,
      (create_session c7_state 10 "chromium" false none none 300 0
          (fun _ => true) (fun _ => true) true true "ws" "b1" "s1").1.bm.browsers.lookup
        "b1" = some bd ∧ bd.display_num = none ∧ bd.headless = true) :=
  create_session_display_exhaustion c7_state 10 "chromium" none none 300 0
    (fun _ => true) (fun _ => true) true "ws" "b1" "s1"
    (by decide) rfl rfl rfl rfl

/-- C10 witness: the downgraded session of the same exhausted pool reports
`headless = false` in the stored record and the response, while the internal
browser data records `headless = true`. -/
theorem downgraded_session_reports_requested_headless_witness :
    (∃ sess : Session,
      (create_session c7_state 10 "chromium" false none none 300 0
          (fun _ => true) (fun _ => true) true true "ws" "b1" "s1").2
        = .ok sess ∧ sess.headless = false) ∧
    (∃ sess : Session,
      (create_session c7_state 10 "chromium" false none none 300 0
          (fun _ => true) (fun _ => true) true true "ws" "b1" "s1").1.sessions.lookup
        "s1" = some sess ∧ sess.headless = false) ∧
    (∃ bd : BrowserData,
      (create_session c7_state 10 "chromium" false none none 300 0
          (fun _ => true) (fun _ => true) true true "ws" "b1" "s1").1.bm.browsers.lookup
        "b1" = some bd ∧ bd.headless = true) :=
  downgraded_session_reports_requested_headless c7_state 10 "chromium" none none
    300 0 (fun _ => true) (fun _ => true) true "ws" "b1" "s1"
    (by decide) rfl rfl rfl rfl rfl

end BrowserServer
